import Mathlib

/-!
Shallow embedding of ToneCraft (src/app.py): tone presets, prompt construction
(build_prompt), credential resolution (get_api_key), the Gemini rewrite call
(call_gemini_rewrite), and the submit branch of main, together with theorems
checking the specification's claims against these definitions.
-/

/-- Drop whitespace from the end of a character list. -/
def stripRight (l : List Char) : List Char :=
  l.rdropWhile Char.isWhitespace

/-- Drop whitespace from the front of a character list. -/
def stripLeft (l : List Char) : List Char :=
  l.dropWhile Char.isWhitespace

/-- Python str.strip() on a character list: whitespace removed from both ends
(CPython semantics for the ASCII whitespace this program manipulates). -/
def stripChars (l : List Char) : List Char :=
  stripRight (stripLeft l)

/-- Embedding of Python str.strip() on strings. -/
def pyStrip (s : String) : String := ⟨stripChars s.data⟩

/-- The frozen TonePreset dataclass of app.py. -/
structure TonePreset where
  label : String
  instruction : String
deriving DecidableEq

/-- The "Polite" entry of the TONES dict (adjacent literals joined as in Python). -/
def politeTone : TonePreset :=
  ⟨"Polite", "Rewrite the sentence politely. Keep it short, respectful, and kind. Do not add extra information."⟩

/-- The "Friendly" entry of the TONES dict. -/
def friendlyTone : TonePreset :=
  ⟨"Friendly", "Rewrite the sentence in a warm, friendly tone. Keep it natural and gentle. Do not add extra information."⟩

/-- The "Professional" entry of the TONES dict. -/
def professionalTone : TonePreset :=
  ⟨"Professional", "Rewrite the sentence in a professional tone (clear, calm, formal). Do not add extra information."⟩

/-- The TONES dict of app.py as an association list (Python dicts preserve
insertion order). -/
def TONES : List (String × TonePreset) :=
  [("Polite", politeTone), ("Friendly", friendlyTone), ("Professional", professionalTone)]

/-- The fixed text of the f-string template of build_prompt that precedes the
Task block (everything after the template's leading newline, up to the
instruction interpolation). -/
def preamble : String :=
  "You are a helpful writing assistant. Your goal is to rewrite one sentence with a bright, supportive vibe.\nRules:\n- Preserve the original meaning.\n- Output ONLY the rewritten sentence. No quotes, no bullet points, no explanations.\n- Keep it concise (1 sentence).\n- Avoid harsh language or negativity; keep it calm and kind."

/-- build_prompt of app.py. The f-string renders a leading newline, the fixed
preamble, the Task separator, the tone instruction, the Sentence separator,
the stripped user text and a trailing newline; .strip() is applied to the
rendered whole. -/
def build_prompt (user_text : String) (tone : TonePreset) : String :=
  pyStrip ("\n" ++ preamble ++ "\n\nTask:\n" ++ tone.instruction
    ++ "\n\nSentence:\n" ++ pyStrip user_text ++ "\n")

/-- Python truthiness of an optional string: None and "" are falsy. -/
def truthy : Option String → Bool
  | none => false
  | some s => if s = "" then false else true

/-- get_api_key of app.py. The secrets store is a per-key lookup that can raise
(st.secrets may be unconfigured); the environment is a total lookup. The try
block absorbs an exception from either secrets access: if the first access
raises, key is still None; if only the second raises, key keeps the first
(falsy) value. -/
def get_api_key (secretsGet : String → Except Unit (Option String))
    (env : String → Option String) : Option String :=
  let key : Option String :=
    match secretsGet "GEMINI_API_KEY" with
    | .error _ => none
    | .ok k1 =>
      if truthy k1 then k1
      else
        match secretsGet "GOOGLE_API_KEY" with
        | .error _ => k1
        | .ok k2 => k2
  if truthy key then key
  else if truthy (env "GEMINI_API_KEY") then env "GEMINI_API_KEY"
  else env "GOOGLE_API_KEY"

/-- types.Part of the request payload (named GenPart here: Mathlib already
declares Part). -/
structure GenPart where
  text : String
deriving DecidableEq

/-- types.Content of the request payload. -/
structure Content where
  role : String
  parts : List GenPart
deriving DecidableEq

/-- types.GenerateContentConfig (numeric literals embedded as rationals). -/
structure GenerateContentConfig where
  temperature : Rat
  top_p : Rat
  max_output_tokens : Nat
deriving DecidableEq

/-- The full argument record of client.models.generate_content. -/
structure GenerateRequest where
  model : String
  contents : List Content
  config : GenerateContentConfig
deriving DecidableEq

/-- The response as used by app.py: only its text field, which may be absent. -/
structure GenerateResponse where
  text : Option String
deriving DecidableEq

/-- The request that call_gemini_rewrite passes to
client.models.generate_content: the given model, the prompt as the sole user
content, the caller's temperature, top_p = 0.95, max_output_tokens = 120. -/
def mkRequest (model prompt : String) (temperature : Rat) : GenerateRequest :=
  ⟨model, [⟨"user", [⟨prompt⟩]⟩], ⟨temperature, 0.95, 120⟩⟩

/-- call_gemini_rewrite of app.py. The client/transport is the service
function, which may raise (Except.error carries the diagnostic); on success
the code returns (response.text or "").strip(). -/
def call_gemini_rewrite (service : GenerateRequest → Except String GenerateResponse)
    (model prompt : String) (temperature : Rat) : Except String String :=
  (service (mkRequest model prompt temperature)).map fun r => pyStrip (r.text.getD "")

/-- A user-facing message emitted by the submit flow: st.warning, st.error or
the diagnostic detail shown by st.exception. -/
inductive UiMessage where
  | warning (text : String)
  | error (text : String)
  | exceptionDetail (text : String)
deriving DecidableEq

/-- Outcome of one pass through the generate branch: the messages shown, the
value of session_state["output"] afterwards, and whether the rewrite call was
reached. -/
structure SubmitResult where
  messages : List UiMessage
  output : Option String
  callAttempted : Bool
deriving DecidableEq

/-- The `if generate:` branch of main (app.py lines 246-274). tone_key comes
from a selectbox over the TONES keys, so the dict access cannot fail there; a
failed lookup would be an uncaught KeyError, modelled as none. prevOutput is
session_state["output"] before the click. -/
def submitFlow (user_text tone_key model : String) (temperature : Rat)
    (secretsGet : String → Except Unit (Option String))
    (env : String → Option String)
    (service : GenerateRequest → Except String GenerateResponse)
    (prevOutput : Option String) : Option SubmitResult :=
  if pyStrip user_text = "" then
    some ⟨[.warning "Please type a sentence first 🌸"], prevOutput, false⟩
  else
    let api_key := get_api_key secretsGet env
    if truthy api_key = false then
      some ⟨[.error "Missing API key. Add `GEMINI_API_KEY` in Streamlit Secrets (or as an environment variable)."],
        prevOutput, false⟩
    else
      match TONES.lookup tone_key with
      | none => none
      | some tone =>
        match call_gemini_rewrite service model (build_prompt user_text tone) temperature with
        | .error e =>
          some ⟨[.error "Something went wrong while calling Gemini.", .exceptionDetail e],
            prevOutput, true⟩
        | .ok out =>
          if out = "" then
            some ⟨[.error "I didn’t get a response. Please try again."], prevOutput, true⟩
          else
            some ⟨[], some out, true⟩

/-! ### Lemmas about stripping -/

lemma stripLeft_cons_of_ws (c : Char) (l : List Char) (h : Char.isWhitespace c = true) :
    stripLeft (c :: l) = stripLeft l := by
  simp [stripLeft, List.dropWhile_cons, h]

lemma stripLeft_append_of (l₁ l₂ : List Char) (h : stripLeft l₁ = l₁) (h0 : l₁ ≠ []) :
    stripLeft (l₁ ++ l₂) = l₁ ++ l₂ := by
  simp only [stripLeft] at h ⊢
  rw [List.dropWhile_append, h]
  simp [h0]

lemma stripRight_append (l₁ l₂ : List Char) (h : stripRight l₂ ≠ []) :
    stripRight (l₁ ++ l₂) = l₁ ++ stripRight l₂ := by
  have h2 : l₂.reverse.dropWhile Char.isWhitespace ≠ [] := by
    intro hh
    exact h (by simp [stripRight, List.rdropWhile, hh])
  have h3 : (l₂.reverse.dropWhile Char.isWhitespace).isEmpty = false := by
    simpa using h2
  simp [stripRight, List.rdropWhile, List.reverse_append, List.dropWhile_append, h3]

lemma stripRight_concat_ws (l : List Char) (c : Char) (h : Char.isWhitespace c = true) :
    stripRight (l ++ [c]) = stripRight l :=
  List.rdropWhile_concat_pos _ _ c h

lemma stripRight_stripChars (l : List Char) : stripRight (stripChars l) = stripChars l := by
  simp only [stripChars, stripRight]
  exact List.rdropWhile_idempotent _ _

lemma head_stripLeft : ∀ (l : List Char) (c : Char) (t : List Char),
    stripLeft l = c :: t → Char.isWhitespace c = false := by
  intro l
  induction l with
  | nil => intro c t h; simp [stripLeft] at h
  | cons a l ih =>
    intro c t h
    by_cases hb : Char.isWhitespace a = true
    · rw [stripLeft, List.dropWhile_cons, if_pos hb] at h
      exact ih c t h
    · rw [stripLeft, List.dropWhile_cons, if_neg hb] at h
      injection h with h1 h2
      rw [← h1]
      simpa using hb

lemma stripLeft_eq_self (X : List Char)
    (hX : ∀ c t, X = c :: t → Char.isWhitespace c = false) : stripLeft X = X := by
  cases X with
  | nil => rfl
  | cons a t =>
    simp [stripLeft, List.dropWhile_cons, hX a t rfl]

/-- Python strip is idempotent. -/
lemma stripChars_idem (l : List Char) : stripChars (stripChars l) = stripChars l := by
  have h1 : stripLeft (stripChars l) = stripChars l := by
    apply stripLeft_eq_self
    intro c t hct
    have hpre : stripChars l <+: stripLeft l := by
      simpa [stripChars, stripRight] using
        List.rdropWhile_prefix Char.isWhitespace (stripLeft l)
    obtain ⟨r, hr⟩ := hpre
    apply head_stripLeft l c (t ++ r)
    rw [← hr, hct]
    simp
  show stripRight (stripLeft (stripChars l)) = stripChars l
  rw [h1]
  exact stripRight_stripChars l

lemma stripRight_chain (A B C D : List Char) (hD : stripRight D ≠ []) :
    stripRight (A ++ (B ++ (C ++ D))) = A ++ (B ++ (C ++ stripRight D)) := by
  have h1 : stripRight (C ++ D) = C ++ stripRight D := stripRight_append _ _ hD
  have h1ne : stripRight (C ++ D) ≠ [] := by
    rw [h1]
    intro hh
    rw [List.append_eq_nil] at hh
    exact hD hh.2
  have h2 : stripRight (B ++ (C ++ D)) = B ++ (C ++ stripRight D) := by
    rw [stripRight_append _ _ h1ne, h1]
  have h2ne : stripRight (B ++ (C ++ D)) ≠ [] := by
    rw [h2]
    intro hh
    rw [List.append_eq_nil, List.append_eq_nil] at hh
    exact hD hh.2.2
  rw [stripRight_append _ _ h2ne, h2]

set_option maxRecDepth 40000 in
lemma stripLeft_preamble : stripLeft preamble.data = preamble.data := by decide

set_option maxRecDepth 40000 in
lemma preamble_ne_nil : preamble.data ≠ [] := by decide

/-- Normal form of the rendered prompt: the outer .strip() removes exactly the
template's leading newline and the trailing whitespace after the embedded
sentence (the whole tail of the Sentence block when the sentence is empty). -/
lemma build_prompt_data (u : String) (t : TonePreset) :
    (build_prompt u t).data =
      preamble.data ++ ("\n\nTask:\n".data ++ (t.instruction.data ++ ("\n\nSentence:".data
        ++ (if stripChars u.data = [] then [] else '\n' :: stripChars u.data)))) := by
  have hU : stripRight (stripChars u.data) = stripChars u.data := stripRight_stripChars _
  have hn : ("\n" : String).data = ['\n'] := rfl
  have htempl : ("\n" ++ preamble ++ "\n\nTask:\n" ++ t.instruction
      ++ "\n\nSentence:\n" ++ pyStrip u ++ "\n").data
      = '\n' :: (preamble.data ++ ("\n\nTask:\n".data ++ (t.instruction.data
        ++ ("\n\nSentence:\n".data ++ (stripChars u.data ++ ['\n']))))) := by
    simp [String.data_append, pyStrip, hn, List.append_assoc]
  show stripChars (("\n" ++ preamble ++ "\n\nTask:\n" ++ t.instruction
      ++ "\n\nSentence:\n" ++ pyStrip u ++ "\n").data) = _
  rw [htempl]
  generalize hUg : stripChars u.data = U at hU ⊢
  unfold stripChars
  rw [stripLeft_cons_of_ws _ _ (by decide),
    stripLeft_append_of _ _ stripLeft_preamble preamble_ne_nil]
  by_cases hUe : U = []
  · rw [hUe]
    have hD : stripRight ("\n\nSentence:\n".data ++ (([] : List Char) ++ ['\n']))
        = "\n\nSentence:".data := by
      decide
    have hDne : stripRight ("\n\nSentence:\n".data ++ (([] : List Char) ++ ['\n'])) ≠ [] := by
      rw [hD]
      decide
    rw [stripRight_chain _ _ _ _ hDne, hD]
    simp
  · have hstep : stripRight (U ++ ['\n']) = U := by
      rw [stripRight_concat_ws _ '\n' (by decide), hU]
    have hstepne : stripRight (U ++ ['\n']) ≠ [] := by
      rw [hstep]
      exact hUe
    have hD : stripRight ("\n\nSentence:\n".data ++ (U ++ ['\n']))
        = "\n\nSentence:\n".data ++ U := by
      rw [stripRight_append _ _ hstepne, hstep]
    have hDne : stripRight ("\n\nSentence:\n".data ++ (U ++ ['\n'])) ≠ [] := by
      rw [hD]
      intro hh
      rw [List.append_eq_nil] at hh
      exact hUe hh.2
    rw [stripRight_chain _ _ _ _ hDne, hD]
    rw [if_neg hUe]
    have hsent : ("\n\nSentence:\n" : String).data = ("\n\nSentence:" : String).data ++ ['\n'] := by
      decide
    rw [hsent]
    simp [List.append_assoc]

/-! ### Claims about build_prompt -/

/-- Claim C1: for every tone preset in the fixed TONES set and every user_text
string, build_prompt(user_text, tone) contains tone.instruction verbatim as a
substring and contains user_text stripped of leading/trailing whitespace
verbatim as a substring. -/
theorem tones_instruction_and_user_text_in_prompt (key : String) (tone : TonePreset)
    (_h : (key, tone) ∈ TONES) (user_text : String) :
    tone.instruction.data <:+: (build_prompt user_text tone).data
    ∧ (pyStrip user_text).data <:+: (build_prompt user_text tone).data := by
  constructor
  · rw [build_prompt_data]
    refine ⟨preamble.data ++ "\n\nTask:\n".data,
      "\n\nSentence:".data
        ++ (if stripChars user_text.data = [] then [] else '\n' :: stripChars user_text.data),
      ?_⟩
    simp [List.append_assoc]
  · show stripChars user_text.data <:+: (build_prompt user_text tone).data
    by_cases hUe : stripChars user_text.data = []
    · rw [hUe]
      exact List.nil_infix
    · rw [build_prompt_data, if_neg hUe]
      refine ⟨preamble.data ++ ("\n\nTask:\n".data ++ (tone.instruction.data
        ++ ("\n\nSentence:".data ++ ['\n']))), [], ?_⟩
      simp [List.append_assoc]

/-- Instantiation of C1 at the Polite preset and a padded sentence. -/
theorem tones_instruction_and_user_text_in_prompt_witness :
    (("Polite", politeTone) ∈ TONES)
    ∧ (politeTone.instruction.data <:+: (build_prompt "  Hello there  " politeTone).data
       ∧ (pyStrip "  Hello there  ").data <:+: (build_prompt "  Hello there  " politeTone).data) :=
  ⟨by simp [TONES],
   tones_instruction_and_user_text_in_prompt "Polite" politeTone (by simp [TONES]) "  Hello there  "⟩

/-- Claim C2: for every user_text whose strip is non-empty and every tone,
build_prompt begins with the fixed preamble (starting "You are a helpful
writing assistant") and ends with the stripped user sentence, so the
surrounding whitespace of user_text never appears around the embedded
sentence. -/
theorem prompt_preamble_and_ending (user_text : String) (tone : TonePreset)
    (h : pyStrip user_text ≠ "") :
    "You are a helpful writing assistant".data <+: (build_prompt user_text tone).data
    ∧ (pyStrip user_text).data <:+ (build_prompt user_text tone).data := by
  have hU : stripChars user_text.data ≠ [] := by
    intro hh
    apply h
    show (⟨stripChars user_text.data⟩ : String) = ""
    rw [hh]
  constructor
  · rw [build_prompt_data]
    have hp : "You are a helpful writing assistant".data <+: preamble.data := by decide
    exact hp.trans ⟨_, rfl⟩
  · show stripChars user_text.data <:+ (build_prompt user_text tone).data
    rw [build_prompt_data, if_neg hU]
    refine ⟨preamble.data ++ ("\n\nTask:\n".data ++ (tone.instruction.data
      ++ ("\n\nSentence:".data ++ ['\n']))), ?_⟩
    simp [List.append_assoc]

/-- Instantiation of C2 at both scenario inputs of the specification:
"  Hello there  " embeds exactly "Hello there", and the Professional prompt for
"Send me the file by today." ends with that literal sentence. -/
theorem prompt_preamble_and_ending_witness :
    pyStrip "  Hello there  " = "Hello there"
    ∧ pyStrip "  Hello there  " ≠ ""
    ∧ ("You are a helpful writing assistant".data <+: (build_prompt "  Hello there  " politeTone).data
       ∧ (pyStrip "  Hello there  ").data <:+ (build_prompt "  Hello there  " politeTone).data)
    ∧ pyStrip "Send me the file by today." = "Send me the file by today."
    ∧ pyStrip "Send me the file by today." ≠ ""
    ∧ ("You are a helpful writing assistant".data <+: (build_prompt "Send me the file by today." professionalTone).data
       ∧ (pyStrip "Send me the file by today.").data <:+ (build_prompt "Send me the file by today." professionalTone).data) :=
  ⟨by decide, by decide,
   prompt_preamble_and_ending "  Hello there  " politeTone (by decide),
   by decide, by decide,
   prompt_preamble_and_ending "Send me the file by today." professionalTone (by decide)⟩

/-- Claim C9: build_prompt is deterministic and pure. In this embedding it is a
total function of its two arguments, so equal arguments give equal results;
the Python source is a single expression over immutable str values (str.strip
returns a fresh string), so the call has no side effects and cannot mutate
user_text. -/
theorem build_prompt_deterministic (u₁ u₂ : String) (t₁ t₂ : TonePreset)
    (hu : u₁ = u₂) (ht : t₁ = t₂) :
    build_prompt u₁ t₁ = build_prompt u₂ t₂ := by
  rw [hu, ht]

/-- Instantiation of C9: two calls on the same concrete input agree. -/
theorem build_prompt_deterministic_witness :
    ("Send me the file by today." : String) = "Send me the file by today."
    ∧ build_prompt "Send me the file by today." politeTone
        = build_prompt "Send me the file by today." politeTone :=
  ⟨rfl, build_prompt_deterministic _ _ _ _ rfl rfl⟩

/-- Claim C10: build_prompt is total (a Lean function on all strings), its
result carries no leading or trailing whitespace (stripping it again is the
identity), and for empty or whitespace-only user_text the well-formed prompt
ends with the literal "Sentence:" line with nothing after it. -/
theorem build_prompt_total_stripped (u : String) (t : TonePreset) :
    pyStrip (build_prompt u t) = build_prompt u t
    ∧ (pyStrip u = "" → "Sentence:".data <:+ (build_prompt u t).data) := by
  constructor
  · show (⟨stripChars (stripChars _)⟩ : String) = ⟨stripChars _⟩
    exact congrArg String.mk (stripChars_idem _)
  · intro h
    have hU : stripChars u.data = [] := by
      have := congrArg String.data h
      simpa [pyStrip] using this
    rw [build_prompt_data, if_pos hU]
    have hsent2 : ("\n\nSentence:" : String).data = ['\n', '\n'] ++ "Sentence:".data := by
      decide
    rw [hsent2]
    refine ⟨preamble.data ++ ("\n\nTask:\n".data ++ (t.instruction.data ++ ['\n', '\n'])), ?_⟩
    simp [List.append_assoc]

/-- Instantiation of C10 at a whitespace-only input. -/
theorem build_prompt_total_stripped_witness :
    pyStrip "   " = ""
    ∧ pyStrip (build_prompt "   " politeTone) = build_prompt "   " politeTone
    ∧ "Sentence:".data <:+ (build_prompt "   " politeTone).data :=
  ⟨by decide,
   (build_prompt_total_stripped "   " politeTone).1,
   (build_prompt_total_stripped "   " politeTone).2 (by decide)⟩

/-! ### Claims about get_api_key -/

/-- The four credential sources in the order get_api_key consults them. -/
def apiKeySources (lookup env : String → Option String) : List (Option String) :=
  [lookup "GEMINI_API_KEY", lookup "GOOGLE_API_KEY",
   env "GEMINI_API_KEY", env "GOOGLE_API_KEY"]

/-- Claim C3: with a non-raising secrets store, get_api_key checks the secrets
store under GEMINI_API_KEY, then GOOGLE_API_KEY, then the environment under
GEMINI_API_KEY, then GOOGLE_API_KEY, and returns the first non-empty value. -/
theorem get_api_key_priority (lookup env : String → Option String)
    (h : (apiKeySources lookup env).any truthy = true) :
    get_api_key (fun k => Except.ok (lookup k)) env
      = ((apiKeySources lookup env).find? truthy).join := by
  simp only [apiKeySources, List.any_cons, List.any_nil, Bool.or_eq_true,
    Bool.or_false] at h
  simp only [get_api_key, apiKeySources]
  cases h1 : truthy (lookup "GEMINI_API_KEY") with
  | true => simp [h1]
  | false =>
    cases h2 : truthy (lookup "GOOGLE_API_KEY") with
    | true => simp [h1, h2]
    | false =>
      cases h3 : truthy (env "GEMINI_API_KEY") with
      | true => simp [h1, h2, h3]
      | false =>
        cases h4 : truthy (env "GOOGLE_API_KEY") with
        | true => simp [h1, h2, h3, h4]
        | false =>
          rw [h1, h2, h3, h4] at h
          simp at h

/-- Instantiation of C3: only the second environment variable is set, all
earlier sources absent or empty, and its value is returned. -/
theorem get_api_key_priority_witness :
    ((apiKeySources (fun _ => none)
        (fun k => if k = "GOOGLE_API_KEY" then some "k-123" else none)).any truthy = true)
    ∧ get_api_key (fun k => Except.ok ((fun _ => (none : Option String)) k))
        (fun k => if k = "GOOGLE_API_KEY" then some "k-123" else none) = some "k-123" := by
  refine ⟨by decide, ?_⟩
  have h := get_api_key_priority (fun _ => none)
    (fun k => if k = "GOOGLE_API_KEY" then some "k-123" else none) (by decide)
  exact h.trans (by decide)

/-- Claim C4: when the secrets store raises on access, get_api_key absorbs the
exception and falls through to the environment variables; with neither
environment variable set it returns none rather than raising (the embedding is
a total function, so no exception escapes). -/
theorem get_api_key_unconfigured (secretsGet : String → Except Unit (Option String))
    (env : String → Option String)
    (h1 : secretsGet "GEMINI_API_KEY" = Except.error ()) :
    get_api_key secretsGet env
      = (if truthy (env "GEMINI_API_KEY") then env "GEMINI_API_KEY"
         else env "GOOGLE_API_KEY")
    ∧ (env "GEMINI_API_KEY" = none → env "GOOGLE_API_KEY" = none →
        get_api_key secretsGet env = none) := by
  have hmain : get_api_key secretsGet env
      = (if truthy (env "GEMINI_API_KEY") then env "GEMINI_API_KEY"
         else env "GOOGLE_API_KEY") := by
    simp [get_api_key, h1, truthy]
  refine ⟨hmain, ?_⟩
  intro e1 e2
  rw [hmain, e1, e2]
  simp [truthy]

/-- Instantiation of C4: raising secrets store, empty environment, result none. -/
theorem get_api_key_unconfigured_witness :
    ((fun _ => (Except.error () : Except Unit (Option String))) "GEMINI_API_KEY"
        = Except.error ())
    ∧ get_api_key (fun _ => Except.error ()) (fun _ => none) = none :=
  ⟨rfl, (get_api_key_unconfigured (fun _ => Except.error ()) (fun _ => none) rfl).2 rfl rfl⟩

/-! ### Claims about call_gemini_rewrite -/

/-- Claim C5: for every service response, call_gemini_rewrite returns the
generated text stripped of surrounding whitespace, and returns the empty
string (not an exception, not an absent value) when the service yields no text
(a None or empty text field). -/
theorem call_gemini_rewrite_trims (service : GenerateRequest → Except String GenerateResponse)
    (model prompt : String) (temperature : Rat) (r : GenerateResponse)
    (h : service (mkRequest model prompt temperature) = Except.ok r) :
    call_gemini_rewrite service model prompt temperature = Except.ok (pyStrip (r.text.getD ""))
    ∧ (r.text = none ∨ r.text = some "" →
        call_gemini_rewrite service model prompt temperature = Except.ok "") := by
  have h0 : pyStrip "" = "" := rfl
  constructor
  · simp [call_gemini_rewrite, h, Except.map]
  · intro ht
    rcases ht with ht | ht <;> simp [call_gemini_rewrite, h, ht, h0, Except.map]

/-- Instantiation of C5: a padded response text is returned trimmed. -/
theorem call_gemini_rewrite_trims_witness :
    ((fun _ => Except.ok ⟨some "  polished  "⟩ :
        GenerateRequest → Except String GenerateResponse)
        (mkRequest "gemini-2.5-flash-lite" "p" 0.3)
      = Except.ok (⟨some "  polished  "⟩ : GenerateResponse))
    ∧ call_gemini_rewrite (fun _ => Except.ok ⟨some "  polished  "⟩)
        "gemini-2.5-flash-lite" "p" 0.3 = Except.ok "polished" := by
  refine ⟨rfl, ?_⟩
  have h := (call_gemini_rewrite_trims (fun _ => Except.ok ⟨some "  polished  "⟩)
    "gemini-2.5-flash-lite" "p" 0.3 ⟨some "  polished  "⟩ rfl).1
  exact h.trans (congrArg Except.ok (by decide))

/-- Claim C6: every invocation of call_gemini_rewrite sends exactly one request
carrying the given model identifier, the given prompt as the sole user
content, the caller-supplied temperature, top_p fixed at 0.95 and
max_output_tokens fixed at 120, and maps its response text through strip. -/
theorem call_gemini_rewrite_request_fields
    (service : GenerateRequest → Except String GenerateResponse)
    (model prompt : String) (temperature : Rat) :
    call_gemini_rewrite service model prompt temperature
      = (service (mkRequest model prompt temperature)).map (fun r => pyStrip (r.text.getD ""))
    ∧ (mkRequest model prompt temperature).model = model
    ∧ (mkRequest model prompt temperature).contents = [⟨"user", [⟨prompt⟩]⟩]
    ∧ (mkRequest model prompt temperature).config.temperature = temperature
    ∧ (mkRequest model prompt temperature).config.top_p = 0.95
    ∧ (mkRequest model prompt temperature).config.max_output_tokens = 120 :=
  ⟨rfl, rfl, rfl, rfl, rfl, rfl⟩

/-! ### Claims about the submit flow of main -/

/-- Claim C7: in the submit flow, an empty rewrite result is handled
differently from an exception: the empty result shows the "no response" error
and stores no output, while an exception from the call is caught and reported
with the generic message plus the diagnostic detail, is not re-raised (the
flow still returns a result) and not retried (the single call is the only
one). In both cases session_state output is unchanged. -/
theorem submit_empty_vs_exception
    (user_text tone_key model : String) (temperature : Rat)
    (secretsGet : String → Except Unit (Option String))
    (env : String → Option String)
    (prevOutput : Option String) (tone : TonePreset)
    (h1 : pyStrip user_text ≠ "")
    (h2 : truthy (get_api_key secretsGet env) = true)
    (h3 : TONES.lookup tone_key = some tone) :
    (∀ service,
      call_gemini_rewrite service model (build_prompt user_text tone) temperature
          = Except.ok "" →
      submitFlow user_text tone_key model temperature secretsGet env service prevOutput
        = some ⟨[.error "I didn’t get a response. Please try again."], prevOutput, true⟩)
    ∧ (∀ service e,
      call_gemini_rewrite service model (build_prompt user_text tone) temperature
          = Except.error e →
      submitFlow user_text tone_key model temperature secretsGet env service prevOutput
        = some ⟨[.error "Something went wrong while calling Gemini.",
            .exceptionDetail e], prevOutput, true⟩) := by
  constructor
  · intro service hc
    simp [submitFlow, h1, h2, h3, hc]
  · intro service e hc
    simp [submitFlow, h1, h2, h3, hc]

/-- Instantiation of C7: one service answering blank text, one raising. -/
theorem submit_empty_vs_exception_witness :
    pyStrip "Hello" ≠ ""
    ∧ truthy (get_api_key (fun _ => Except.ok (some "KEY")) (fun _ => none)) = true
    ∧ TONES.lookup "Polite" = some politeTone
    ∧ submitFlow "Hello" "Polite" "gemini-2.5-flash-lite" 0.3
        (fun _ => Except.ok (some "KEY")) (fun _ => none)
        (fun _ => Except.ok ⟨some " "⟩) none
        = some ⟨[.error "I didn’t get a response. Please try again."], none, true⟩
    ∧ submitFlow "Hello" "Polite" "gemini-2.5-flash-lite" 0.3
        (fun _ => Except.ok (some "KEY")) (fun _ => none)
        (fun _ => Except.error "boom") none
        = some ⟨[.error "Something went wrong while calling Gemini.",
            .exceptionDetail "boom"], none, true⟩ := by
  refine ⟨by decide, by decide, by decide, ?_, ?_⟩
  · exact (submit_empty_vs_exception "Hello" "Polite" "gemini-2.5-flash-lite" 0.3
      (fun _ => Except.ok (some "KEY")) (fun _ => none) none politeTone
      (by decide) (by decide) (by decide)).1 _ rfl
  · exact (submit_empty_vs_exception "Hello" "Polite" "gemini-2.5-flash-lite" 0.3
      (fun _ => Except.ok (some "KEY")) (fun _ => none) none politeTone
      (by decide) (by decide) (by decide)).2 _ "boom" rfl

/-- Claim C8: in the submit flow, blank input or an absent credential shows a
user-facing warning/error and returns before any client construction or
service call (callAttempted is false), leaving the stored output unchanged. -/
theorem submit_guards
    (user_text tone_key model : String) (temperature : Rat)
    (secretsGet : String → Except Unit (Option String))
    (env : String → Option String)
    (service : GenerateRequest → Except String GenerateResponse)
    (prevOutput : Option String) :
    (pyStrip user_text = "" →
      submitFlow user_text tone_key model temperature secretsGet env service prevOutput
        = some ⟨[.warning "Please type a sentence first 🌸"], prevOutput, false⟩)
    ∧ (pyStrip user_text ≠ "" → truthy (get_api_key secretsGet env) = false →
      submitFlow user_text tone_key model temperature secretsGet env service prevOutput
        = some ⟨[.error "Missing API key. Add `GEMINI_API_KEY` in Streamlit Secrets (or as an environment variable)."],
            prevOutput, false⟩) := by
  constructor
  · intro h
    simp [submitFlow, h]
  · intro h1 h2
    simp [submitFlow, h1, h2]

/-- Instantiation of C8: a whitespace-only input and a configuration with no
credential, each with a service that would answer if called. -/
theorem submit_guards_witness :
    pyStrip "   " = ""
    ∧ submitFlow "   " "Polite" "gemini-2.5-flash-lite" 0.3
        (fun _ => Except.ok (some "KEY")) (fun _ => none)
        (fun _ => Except.ok ⟨some "ok"⟩) (some "old")
        = some ⟨[.warning "Please type a sentence first 🌸"], some "old", false⟩
    ∧ pyStrip "Hi" ≠ ""
    ∧ truthy (get_api_key (fun _ => Except.error ()) (fun _ => none)) = false
    ∧ submitFlow "Hi" "Polite" "gemini-2.5-flash-lite" 0.3
        (fun _ => Except.error ()) (fun _ => none)
        (fun _ => Except.ok ⟨some "ok"⟩) (some "old")
        = some ⟨[.error "Missing API key. Add `GEMINI_API_KEY` in Streamlit Secrets (or as an environment variable)."],
            some "old", false⟩ := by
  refine ⟨by decide, ?_, by decide, by decide, ?_⟩
  · exact (submit_guards "   " "Polite" "gemini-2.5-flash-lite" 0.3
      (fun _ => Except.ok (some "KEY")) (fun _ => none)
      (fun _ => Except.ok ⟨some "ok"⟩) (some "old")).1 (by decide)
  · exact (submit_guards "Hi" "Polite" "gemini-2.5-flash-lite" 0.3
      (fun _ => Except.error ()) (fun _ => none)
      (fun _ => Except.ok ⟨some "ok"⟩) (some "old")).2 (by decide) (by decide)
